import Mathlib

/-!
Verification of the agronomic forecast core of the Farming repository.

The embedded code comes from `src/agri_weather.py` (the complete analysis
pipeline `get_agri_weather_forecast`, its inner helpers `classify_flags` and
`crop_recommendation`), with the parallel service variants
`src/weather_service.py` and `src/crop_service.py` modelled where the claims
cite them.

Numeric model: the Python floats are embedded as exact rationals (ℚ).  The
only irrational operation in the source, the square root inside the `et0`
computation (agri_weather.py line 119), is embedded two ways:
* for the pipeline, as an explicit parameter `fsqrt : ℚ → ℚ` standing for the
  floating-point square root (all concrete inputs used in closed theorems
  keep `temp_max = temp_min`, so the only square root ever taken is √0 = 0,
  where every model of square root agrees);
* for the claim about the `et0` formula itself, over ℝ with `Real.sqrt`.
Float NaN is modelled by `Option` (`none` = NaN): `(x)**0.5` of a negative
float is NaN, NaN propagates through arithmetic, and every float comparison
against NaN is false — the `none` branches below encode exactly that.
-/

namespace Farming

/-! ### Substring search

`agri_weather.py` decides the forecast verdict and the critical warnings by
Python substring tests (`'Red' in ...`, `"RED" in ...`).  `seekAt pat s`
tests whether `pat` occurs at the head of `s`; `occurs pat s` whether it
occurs anywhere; `strHas s pat` is the string-level wrapper. -/

def seekAt : List Char → List Char → Bool
  | [], _ => true
  | _ :: _, [] => false
  | p :: ps, c :: cs => p == c && seekAt ps cs

def occurs (pat : List Char) : List Char → Bool
  | [] => seekAt pat []
  | c :: cs => seekAt pat (c :: cs) || occurs pat cs

def strHas (s pat : String) : Bool := occurs pat.toList s.toList

/-- Python `str.lower` (ASCII range, which is all the source ever feeds it). -/
def lowerChar (c : Char) : Char :=
  if 65 ≤ c.toNat ∧ c.toNat ≤ 90 then Char.ofNat (c.toNat + 32) else c

def lowerStr (s : String) : String := String.mk (s.toList.map lowerChar)

/-- Python `str.upper` (ASCII range). -/
def upperChar (c : Char) : Char :=
  if 97 ≤ c.toNat ∧ c.toNat ≤ 122 then Char.ofNat (c.toNat - 32) else c

def upperStr (s : String) : String := String.mk (s.toList.map upperChar)

/-- Strict lexicographic order on strings (how ISO `YYYY-MM-DD` date strings
compare chronologically). -/
def lexLt : List Char → List Char → Bool
  | [], [] => false
  | [], _ :: _ => true
  | _ :: _, [] => false
  | a :: as, b :: bs => if a = b then lexLt as bs else decide (a < b)

def strLt (a b : String) : Bool := lexLt a.toList b.toList

theorem seekAt_iff (pat : List Char) : ∀ s, seekAt pat s = true ↔ ∃ t, s = pat ++ t := by
  induction pat with
  | nil => intro s; simp [seekAt]
  | cons p ps ih =>
    intro s
    cases s with
    | nil => simp [seekAt]
    | cons c cs =>
      simp only [seekAt, Bool.and_eq_true, beq_iff_eq, ih, List.cons_append, List.cons.injEq]
      constructor
      · rintro ⟨rfl, t, rfl⟩; exact ⟨t, rfl, rfl⟩
      · rintro ⟨t, rfl, rfl⟩; exact ⟨rfl, t, rfl⟩

theorem occurs_nil (l : List Char) : occurs [] l = true := by
  induction l with
  | nil => rfl
  | cons c cs ih => simp [occurs, seekAt]

theorem occurs_of_seekAt {pat s : List Char} (h : seekAt pat s = true) :
    occurs pat s = true := by
  cases s with
  | nil => simpa [occurs] using h
  | cons c cs => simp [occurs, h]

theorem seekAt_extend {pat s : List Char} (t : List Char) (h : seekAt pat s = true) :
    seekAt pat (s ++ t) = true := by
  induction pat generalizing s with
  | nil => rfl
  | cons p ps ih =>
    cases s with
    | nil => simp [seekAt] at h
    | cons c cs =>
      simp only [seekAt, Bool.and_eq_true] at h ⊢
      exact ⟨h.1, ih h.2⟩

theorem occurs_append_left {pat a : List Char} (b : List Char) (h : occurs pat a = true) :
    occurs pat (a ++ b) = true := by
  induction a with
  | nil =>
    simp only [occurs] at h
    rw [seekAt_iff] at h
    obtain ⟨t, ht⟩ := h
    have : pat = [] := by cases pat <;> simp_all
    subst this
    exact occurs_nil b
  | cons c cs ih =>
    simp only [occurs, Bool.or_eq_true] at h ⊢
    rcases h with h | h
    · exact Or.inl (seekAt_extend b h)
    · exact Or.inr (ih h)

theorem occurs_append_right {pat : List Char} (a : List Char) {b : List Char}
    (h : occurs pat b = true) : occurs pat (a ++ b) = true := by
  induction a with
  | nil => simpa using h
  | cons c cs ih =>
    simp only [List.cons_append, occurs, Bool.or_eq_true]
    exact Or.inr ih

theorem seekAt_split (pat a b : List Char) (h : seekAt pat (a ++ b) = true) :
    seekAt pat a = true ∨ ∃ q, pat = a ++ q ∧ seekAt q b = true := by
  induction a generalizing pat with
  | nil => exact Or.inr ⟨pat, rfl, h⟩
  | cons c cs ih =>
    cases pat with
    | nil => exact Or.inl rfl
    | cons p ps =>
      simp only [List.cons_append, seekAt, Bool.and_eq_true] at h
      rcases ih ps h.2 with h' | ⟨q, rfl, hq⟩
      · exact Or.inl (by simp [seekAt, h.1, h'])
      · exact Or.inr ⟨q, by simp [beq_iff_eq.mp h.1], hq⟩

theorem seekAt_self (l : List Char) : seekAt l l = true := by
  induction l with
  | nil => rfl
  | cons c cs ih => simp [seekAt, ih]

/-- Decomposition of a substring occurrence in a concatenation: the pattern
occurs in the left part, in the right part, or straddles the boundary, in
which case the left part ends with a nonempty proper head of the pattern. -/
theorem occurs_split (pat a b : List Char) (h : occurs pat (a ++ b) = true) :
    occurs pat a = true ∨ occurs pat b = true ∨
      ∃ p q u, pat = p ++ q ∧ p ≠ [] ∧ q ≠ [] ∧ a = u ++ p := by
  induction a with
  | nil => exact Or.inr (Or.inl (by simpa using h))
  | cons c cs ih =>
    simp only [List.cons_append, occurs, Bool.or_eq_true] at h
    rcases h with h | h
    · rcases seekAt_split pat (c :: cs) b h with h' | ⟨q, rfl, hq⟩
      · exact Or.inl (occurs_of_seekAt h')
      · cases q with
        | nil => exact Or.inl (by simpa using occurs_of_seekAt (seekAt_self (c :: cs)))
        | cons q0 qs =>
          exact Or.inr (Or.inr ⟨c :: cs, q0 :: qs, [], by simp, by simp, by simp, by simp⟩)
    · rcases ih h with h' | h' | ⟨p, q, u, hpq, hp, hq, rfl⟩
      · exact Or.inl (by simp [occurs, h'])
      · exact Or.inr (Or.inl h')
      · exact Or.inr (Or.inr ⟨p, q, c :: u, hpq, hp, hq, by simp⟩)

theorem getLast?_append_right : ∀ (u p : List Char), p ≠ [] →
    (u ++ p).getLast? = p.getLast? := by
  intro u
  induction u with
  | nil => intro p _; rfl
  | cons x u' ih =>
    intro p hp
    have hne : u' ++ p ≠ [] := by
      intro hcon
      exact hp (List.append_eq_nil.mp hcon).2
    rw [List.cons_append]
    cases hu : u' ++ p with
    | nil => exact absurd hu hne
    | cons y l =>
      rw [List.getLast?_cons_cons, ← hu, ih p hp]

/-- The nonempty proper heads of the pattern `"Red"`. -/
theorem red_splits (p q : List Char) (hpq : p ++ q = ['R', 'e', 'd'])
    (hp : p ≠ []) (hq : q ≠ []) : p = ['R'] ∨ p = ['R', 'e'] := by
  cases p with
  | nil => exact absurd rfl hp
  | cons x p' =>
    cases p' with
    | nil =>
      simp only [List.cons_append, List.nil_append, List.cons.injEq] at hpq
      exact Or.inl (by simp [hpq.1])
    | cons y p'' =>
      cases p'' with
      | nil =>
        simp only [List.cons_append, List.nil_append, List.cons.injEq] at hpq
        exact Or.inr (by simp [hpq.1, hpq.2.1])
      | cons z p''' =>
        simp only [List.cons_append, List.cons.injEq] at hpq
        have := hpq.2.2.2
        have hq' : q = [] := (List.append_eq_nil.mp this).2
        exact absurd hq' hq

/-! ### Stress-flag classification (`classify_flags`, agri_weather.py 37–54;
identically `_classify_agri_flags`, weather_service.py 30–48)

The source builds a dict with four keys from the row's fields; the water axis
reads `aridity_index`, which can be NaN (`none`), in which case both `< 0.5`
and `< 1` are false and the Green branch is taken — exactly as float
comparisons against NaN behave. -/

structure Flags where
  heat : String
  cold : String
  water : String
  wind : String
deriving DecidableEq

def heatOf (temp_max : ℚ) : String :=
  if temp_max > 38 then "🔴 Red (Heat stress)"
  else if temp_max > 32 then "🟡 Yellow (Mild stress)"
  else "🟢 Green (Safe)"

def coldOf (temp_min : ℚ) : String :=
  if temp_min < 5 then "🔴 Red (Frost risk)"
  else if temp_min < 10 then "🟡 Yellow (Chill stress)"
  else "🟢 Green (Safe)"

def waterOf (aridity_index : Option ℚ) : String :=
  match aridity_index with
  | some x =>
    if x < 0.5 then "🔴 Red (Irrigation needed)"
    else if x < 1 then "🟡 Yellow (Monitor)"
    else "🟢 Green (Sufficient)"
  | none => "🟢 Green (Sufficient)"

def windOf (wind_gusts : ℚ) : String :=
  if wind_gusts > 60 then "🔴 Red (Lodging risk)"
  else if wind_gusts > 40 then "🟡 Yellow (Caution)"
  else "🟢 Green (Safe)"

def classify_flags (temp_max temp_min : ℚ) (aridity_index : Option ℚ)
    (wind_gusts : ℚ) : Flags :=
  { heat := heatOf temp_max
    cold := coldOf temp_min
    water := waterOf aridity_index
    wind := windOf wind_gusts }

/-- A flag set actually produced by the classifier. -/
def IsClassified (f : Flags) : Prop :=
  ∃ tmax tmin ai wg, classify_flags tmax tmin ai wg = f

/-! Spec-side reading of the rendered flag strings: the spec's three levels
Safe / Caution / Alert correspond to the Green / Yellow / Red markers. -/

inductive Level where
  | safe
  | caution
  | alert
deriving DecidableEq

def flagLevel (s : String) : Level :=
  if strHas s "Red" then .alert
  else if strHas s "Yellow" then .caution
  else .safe

/-- Alert-level marker in some axis of a flag set (spec-side reading). -/
def hasAlert (f : Flags) : Bool :=
  flagLevel f.heat == .alert || flagLevel f.cold == .alert ||
    flagLevel f.water == .alert || flagLevel f.wind == .alert

/-- Source-side check used at agri_weather.py line 149:
`any("Red" in flag for flag in row["flags"].values())`. -/
def anyFlagRed (f : Flags) : Bool :=
  strHas f.heat "Red" || strHas f.cold "Red" || strHas f.water "Red" || strHas f.wind "Red"

/-! ### Data model of the pipeline

`DailyIn` is one row of the daily DataFrame built at agri_weather.py 97–104
(one record per date returned by the forecast collaborator).  `Row` is the
same row after the humidity merge and the derived-metric / flag columns of
lines 109–121; `OutRow` adds the `recommendations` column (line 133) and is
what `df_rounded.to_dict(orient='records')` serialises at lines 152–155. -/

structure DailyIn where
  date : String
  temp_max : ℚ
  temp_min : ℚ
  precip_mm : ℚ
  wind_speed : ℚ
  wind_gusts : ℚ
deriving DecidableEq

structure Row where
  date : String
  temp_max : ℚ
  temp_min : ℚ
  precip_mm : ℚ
  wind_speed : ℚ
  wind_gusts : ℚ
  humidity : Option ℚ
  temp : ℚ
  et0 : Option ℚ
  aridity_index : Option ℚ
  flags : Flags
deriving DecidableEq

structure OutRow where
  date : String
  temp_max : ℚ
  temp_min : ℚ
  precip_mm : ℚ
  wind_speed : ℚ
  wind_gusts : ℚ
  humidity : Option ℚ
  temp : ℚ
  et0 : Option ℚ
  aridity_index : Option ℚ
  flags : Flags
  recommendations : String
deriving DecidableEq

/-- One conditional advisory rule of the crop knowledge base.  A rule's
`"when"` field is an arbitrary Python expression evaluated against the row's
column values (agri_weather.py line 63); it is embedded as a function from
the row to `Option Bool`: `some b` is an evaluation returning truthiness `b`,
`none` is an evaluation that raises. -/
structure CropRule where
  whenCond : Row → Option Bool
  severity : String
  advisory : String

/-- One crop of `crop_knowledgebase.json`: canonical name, aliases, rules. -/
structure CropEntry where
  name : String
  aliases : List String
  rules : List CropRule

/-- Python-dict lookup over an insertion list: the last binding of a key
wins, as later dict assignments overwrite earlier ones. -/
def dictGet (pairs : List (String × List CropRule)) (k : String) :
    Option (List CropRule) :=
  ((pairs.filter (fun p => p.1 == k)).getLast?).map Prod.snd

/-- The `CROP_RULES` table of agri_weather.py 127–129: canonical names first,
then aliases, all stored verbatim (NOT lowercased). -/
def buildCropRules (entries : List CropEntry) : List (String × List CropRule) :=
  entries.map (fun c => (c.name, c.rules)) ++
    entries.flatMap (fun c => c.aliases.map (fun a => (a, c.rules)))

/-- The table of `_load_crop_rules` (crop_service.py 13–16): same shape, but
names and aliases are lowercased before insertion. -/
def buildCropRulesLower (entries : List CropEntry) : List (String × List CropRule) :=
  entries.map (fun c => (lowerStr c.name, c.rules)) ++
    entries.flatMap (fun c => c.aliases.map (fun a => (lowerStr a, c.rules)))

def noKbMsg (crop_name : String) : String :=
  "No knowledge base for \x27" ++ crop_name ++ "\x27."

def favorableMsg : String := "Conditions favorable."

def renderRule (r : CropRule) : String :=
  "[" ++ upperStr r.severity ++ "] " ++ r.advisory

/-- The body of `crop_recommendation` (agri_weather.py 56–67) once the crop
rule set has been found and is non-empty: every rule whose condition
evaluates to true contributes `"[SEVERITY] advisory"`, a raising or false
condition is skipped (the `try/except: continue`), matches are joined with
`" | "`, and the favorable text is substituted when nothing matched. -/
def evalRules (rules : List CropRule) (row : Row) : String :=
  let recs := rules.filterMap fun r =>
    if r.whenCond row == some true then some (renderRule r) else none
  if recs.isEmpty then favorableMsg else String.intercalate " | " recs

/-- `crop_recommendation`'s result for a present crop name: the dict lookup
uses the lowercased request; `if not rules` returns the no-knowledge-base
message both when the key is absent and when the rule list is empty. -/
def recText (crop_name : String) (table : List (String × List CropRule))
    (row : Row) : String :=
  match dictGet table (lowerStr crop_name) with
  | none => noKbMsg crop_name
  | some rules => if rules.isEmpty then noKbMsg crop_name else evalRules rules row

def attrErrMsg : String :=
  "AttributeError: \x27NoneType\x27 object has no attribute \x27lower\x27"

/-- `crop_recommendation` (agri_weather.py 56–67).  `crop_name` is the outer
function's argument, captured by the closure; the Python parameter is
`crop_name: str`, and passing `None` makes `crop_name.lower()` raise an
uncaught `AttributeError` (the `try` starts only at the rule loop), which is
modelled as `Except.error`. -/
def crop_recommendation (crop_name : Option String)
    (table : List (String × List CropRule)) (row : Row) : Except String String :=
  match crop_name with
  | none => .error attrErrMsg
  | some cn => .ok (recText cn table row)

/-! ### Humidity aggregation and merge (agri_weather.py 109–113)

The hourly frame's timestamps are reduced to dates (`strftime("%Y-%m-%d")`,
i.e. the first 10 characters of the ISO timestamp) and grouped to one mean
per date.  The grouped frame has unique dates, so the `how='left'` merge is
exactly a per-row lookup: no daily row is dropped or duplicated.  The
missing means are then forward- and backward-filled. -/

def dateOfTimestamp (ts : String) : String := String.mk (ts.toList.take 10)

def meanHumidity (hourly : List (String × ℚ)) (d : String) : Option ℚ :=
  let vs := (hourly.filter (fun p => dateOfTimestamp p.1 == d)).map Prod.snd
  if vs.isEmpty then none else some (vs.sum / (vs.length : ℚ))

def ffillFrom : Option ℚ → List (Option ℚ) → List (Option ℚ)
  | _, [] => []
  | last, none :: rest => last :: ffillFrom last rest
  | _, some v :: rest => some v :: ffillFrom (some v) rest

def fillHumidity (l : List (Option ℚ)) : List (Option ℚ) :=
  (ffillFrom none (ffillFrom none l).reverse).reverse

theorem ffillFrom_length (last : Option ℚ) (l : List (Option ℚ)) :
    (ffillFrom last l).length = l.length := by
  induction l generalizing last with
  | nil => rfl
  | cons x rest ih =>
    cases x with
    | none => simp [ffillFrom, ih]
    | some v => simp [ffillFrom, ih]

theorem fillHumidity_length (l : List (Option ℚ)) :
    (fillHumidity l).length = l.length := by
  simp [fillHumidity, ffillFrom_length]

/-! ### Derived metrics (agri_weather.py 118–121) -/

def annotateRow (fsqrt : ℚ → ℚ) (d : DailyIn) (hum : Option ℚ) : Row :=
  let temp := (d.temp_min + d.temp_max) / 2
  let et0 : Option ℚ :=
    if d.temp_max - d.temp_min < 0 then none
    else some (0.0023 * fsqrt (d.temp_max - d.temp_min) * (temp + 17.8))
  let ai : Option ℚ := et0.map (fun e => d.precip_mm / (e + 0.01))
  { date := d.date
    temp_max := d.temp_max
    temp_min := d.temp_min
    precip_mm := d.precip_mm
    wind_speed := d.wind_speed
    wind_gusts := d.wind_gusts
    humidity := hum
    temp := temp
    et0 := et0
    aridity_index := ai
    flags := classify_flags d.temp_max d.temp_min ai d.wind_gusts }

/-- The annotated rows of the DataFrame after lines 109–121. -/
def annRows (fsqrt : ℚ → ℚ) (daily : List DailyIn) (hourly : List (String × ℚ)) :
    List Row :=
  let hums := fillHumidity (daily.map (fun d => meanHumidity hourly d.date))
  (daily.zip hums).map (fun p => annotateRow fsqrt p.1 p.2)

/-! ### Summary, warnings and rounding (agri_weather.py 139–161) -/

/-- `''.join(...)` over the rendered flag dicts of all days.  Python renders
each dict as `repr`; only the dict's values can contain the probed substring
`'Red'` (the keys are `heat/cold/water/wind` and the punctuation is quotes,
braces, commas), so the repr is embedded as the comma-joined values. -/
def flagsStr (f : Flags) : String :=
  f.heat ++ ", " ++ f.cold ++ ", " ++ f.water ++ ", " ++ f.wind

def joinAll : List String → String
  | [] => ""
  | s :: rest => s ++ joinAll rest

/-- The verdict of agri_weather.py line 143:
`'favorable' if 'Red' not in ''.join(str(f) for f in df['flags']) else 'challenging'`.
Only the flags column is probed — not the recommendation texts. -/
def summaryVerdict (fls : List Flags) : String :=
  if strHas (joinAll (fls.map flagsStr)) "Red" then "challenging" else "favorable"

def noWarningsMsg : String :=
  "No critical warnings identified. Conditions are generally stable."

/-- The per-day criticality test of line 149:
`"RED" in row["recommendations"] or any("Red" in flag for flag in row["flags"].values())`. -/
def isCritical (f : Flags) (rec : String) : Bool :=
  strHas rec "RED" || anyFlagRed f

def criticalWarnings (pairs : List (Row × String)) : List String :=
  pairs.filterMap fun p =>
    if isCritical p.1.flags p.2 then some ("On " ++ p.1.date ++ ": " ++ p.2) else none

/-- Round-half-to-even on ℚ, the rounding mode of `numpy`/`pandas.round`. -/
def roundHalfEven (q : ℚ) : ℤ :=
  let f := ⌊q⌋
  let r := q - f
  if r < 1 / 2 then f
  else if 1 / 2 < r then f + 1
  else if Even f then f else f + 1

/-- `df.round(n)`: round each float to `n` decimal places. -/
def dfRound (n : ℕ) (q : ℚ) : ℚ :=
  (roundHalfEven (q * (10 : ℚ) ^ n) : ℚ) / (10 : ℚ) ^ n

/-- `df_rounded = df.round(2)` (agri_weather.py line 154). -/
def round2 (q : ℚ) : ℚ := dfRound 2 q

/-- One record of `df_rounded.to_dict(orient='records')`: every float column
rounded, the date / flags / recommendations columns untouched. -/
def finalizeRow (r : Row) (rec : String) : OutRow :=
  { date := r.date
    temp_max := round2 r.temp_max
    temp_min := round2 r.temp_min
    precip_mm := round2 r.precip_mm
    wind_speed := round2 r.wind_speed
    wind_gusts := round2 r.wind_gusts
    humidity := r.humidity.map round2
    temp := round2 r.temp
    et0 := r.et0.map round2
    aridity_index := r.aridity_index.map round2
    flags := r.flags
    recommendations := rec }

structure AgriOutput where
  summary : String
  key_insights : List String
  daily_forecast : List OutRow
deriving DecidableEq

def emptyDfMsg : String := "Could not construct DataFrame from weather API response."

/-- `df.apply(crop_recommendation, axis=1)`: row by row, a raised exception
aborts the whole apply (and the whole request). -/
def applyRecs (crop_name : Option String) (table : List (String × List CropRule)) :
    List Row → Except String (List (Row × String))
  | [] => .ok []
  | r :: rest =>
    match crop_recommendation crop_name table r with
    | .error e => .error e
    | .ok s => (applyRecs crop_name table rest).map (fun l => (r, s) :: l)

/-- The analysis pipeline of `get_agri_weather_forecast` (agri_weather.py
97–161), starting after the two network fetches: DataFrame construction,
empty check, humidity merge and fill, derived metrics and flags, per-day
crop recommendations, summary verdict, critical warnings, rounding.  The
numeric prefix of the summary sentence (mean max temperature, total
precipitation — presentation formatting) is not reproduced; the summary is
embedded as its verdict-carrying tail.  `entries` stands for the parsed
`crop_knowledgebase.json` (its absence, a load-time error, is out of scope
here), and `.error` collects both the returned error dicts and the uncaught
`AttributeError` of a `None` crop name. -/
def get_agri_weather_forecast (fsqrt : ℚ → ℚ) (crop_name : Option String)
    (entries : List CropEntry) (daily : List DailyIn)
    (hourly : List (String × ℚ)) : Except String AgriOutput :=
  if daily.isEmpty then .error emptyDfMsg
  else
    match applyRecs crop_name (buildCropRules entries) (annRows fsqrt daily hourly) with
    | .error e => .error e
    | .ok rrows =>
      .ok
        { summary := "Overall conditions appear " ++
            summaryVerdict (rrows.map (fun p => p.1.flags)) ++ "."
          key_insights :=
            if (criticalWarnings rrows).isEmpty then [noWarningsMsg]
            else criticalWarnings rrows
          daily_forecast := rrows.map (fun p => finalizeRow p.1 p.2) }

/-! ### Per-axis facts about the rendered flag strings -/

theorem toList_append (a b : String) : (a ++ b).toList = a.toList ++ b.toList := by
  cases a
  cases b
  rfl

def redL : List Char := ['R', 'e', 'd']

theorem heatOf_mem (t : ℚ) :
    heatOf t = "🔴 Red (Heat stress)" ∨ heatOf t = "🟡 Yellow (Mild stress)" ∨
      heatOf t = "🟢 Green (Safe)" := by
  unfold heatOf
  split_ifs <;> simp

theorem coldOf_mem (t : ℚ) :
    coldOf t = "🔴 Red (Frost risk)" ∨ coldOf t = "🟡 Yellow (Chill stress)" ∨
      coldOf t = "🟢 Green (Safe)" := by
  unfold coldOf
  split_ifs <;> simp

theorem waterOf_some (x : ℚ) :
    waterOf (some x) =
      if x < 0.5 then "🔴 Red (Irrigation needed)"
      else if x < 1 then "🟡 Yellow (Monitor)" else "🟢 Green (Sufficient)" := rfl

theorem waterOf_mem (ai : Option ℚ) :
    waterOf ai = "🔴 Red (Irrigation needed)" ∨ waterOf ai = "🟡 Yellow (Monitor)" ∨
      waterOf ai = "🟢 Green (Sufficient)" := by
  cases ai with
  | none => simp [waterOf]
  | some x =>
    rw [waterOf_some]
    split_ifs <;> simp

theorem windOf_mem (w : ℚ) :
    windOf w = "🔴 Red (Lodging risk)" ∨ windOf w = "🟡 Yellow (Caution)" ∨
      windOf w = "🟢 Green (Safe)" := by
  unfold windOf
  split_ifs <;> simp

theorem heat_level_alert (t : ℚ) : flagLevel (heatOf t) = .alert ↔ 38 < t := by
  unfold heatOf
  split_ifs with h1 h2
  · exact iff_of_true (by decide) h1
  · exact iff_of_false (by decide) h1
  · exact iff_of_false (by decide) h1

theorem heat_level_caution (t : ℚ) :
    flagLevel (heatOf t) = .caution ↔ 32 < t ∧ t ≤ 38 := by
  unfold heatOf
  split_ifs with h1 h2
  · exact iff_of_false (by decide) (fun h => absurd h1 (not_lt.mpr h.2))
  · exact iff_of_true (by decide) ⟨h2, le_of_not_lt h1⟩
  · exact iff_of_false (by decide) (fun h => absurd h.1 h2)

theorem heat_level_safe (t : ℚ) : flagLevel (heatOf t) = .safe ↔ t ≤ 32 := by
  unfold heatOf
  split_ifs with h1 h2
  · exact iff_of_false (by decide) (fun h => absurd h1 (not_lt.mpr (h.trans (by norm_num))))
  · exact iff_of_false (by decide) (fun h => absurd h2 (not_lt.mpr h))
  · exact iff_of_true (by decide) (le_of_not_lt h2)

theorem cold_level_alert (t : ℚ) : flagLevel (coldOf t) = .alert ↔ t < 5 := by
  unfold coldOf
  split_ifs with h1 h2
  · exact iff_of_true (by decide) h1
  · exact iff_of_false (by decide) h1
  · exact iff_of_false (by decide) h1

theorem cold_level_caution (t : ℚ) :
    flagLevel (coldOf t) = .caution ↔ 5 ≤ t ∧ t < 10 := by
  unfold coldOf
  split_ifs with h1 h2
  · exact iff_of_false (by decide) (fun h => absurd h1 (not_lt.mpr h.1))
  · exact iff_of_true (by decide) ⟨le_of_not_lt h1, h2⟩
  · exact iff_of_false (by decide) (fun h => absurd h.2 h2)

theorem cold_level_safe (t : ℚ) : flagLevel (coldOf t) = .safe ↔ 10 ≤ t := by
  unfold coldOf
  split_ifs with h1 h2
  · exact iff_of_false (by decide) (fun h => absurd h1 (not_lt.mpr (le_trans (by norm_num) h)))
  · exact iff_of_false (by decide) (fun h => absurd h2 (not_lt.mpr h))
  · exact iff_of_true (by decide) (le_of_not_lt h2)

theorem water_level_alert (ai : ℚ) :
    flagLevel (waterOf (some ai)) = .alert ↔ ai < 0.5 := by
  rw [waterOf_some]
  split_ifs with h1 h2
  · exact iff_of_true (by decide) h1
  · exact iff_of_false (by decide) h1
  · exact iff_of_false (by decide) h1

theorem water_level_caution (ai : ℚ) :
    flagLevel (waterOf (some ai)) = .caution ↔ 0.5 ≤ ai ∧ ai < 1 := by
  rw [waterOf_some]
  split_ifs with h1 h2
  · exact iff_of_false (by decide) (fun h => absurd h1 (not_lt.mpr h.1))
  · exact iff_of_true (by decide) ⟨le_of_not_lt h1, h2⟩
  · exact iff_of_false (by decide) (fun h => absurd h.2 h2)

theorem water_level_safe (ai : ℚ) :
    flagLevel (waterOf (some ai)) = .safe ↔ 1 ≤ ai := by
  rw [waterOf_some]
  split_ifs with h1 h2
  · exact iff_of_false (by decide)
      (fun h => absurd h1 (not_lt.mpr (le_trans (by norm_num) h)))
  · exact iff_of_false (by decide) (fun h => absurd h2 (not_lt.mpr h))
  · exact iff_of_true (by decide) (le_of_not_lt h2)

theorem wind_level_alert (w : ℚ) : flagLevel (windOf w) = .alert ↔ 60 < w := by
  unfold windOf
  split_ifs with h1 h2
  · exact iff_of_true (by decide) h1
  · exact iff_of_false (by decide) h1
  · exact iff_of_false (by decide) h1

theorem wind_level_caution (w : ℚ) :
    flagLevel (windOf w) = .caution ↔ 40 < w ∧ w ≤ 60 := by
  unfold windOf
  split_ifs with h1 h2
  · exact iff_of_false (by decide) (fun h => absurd h1 (not_lt.mpr h.2))
  · exact iff_of_true (by decide) ⟨h2, le_of_not_lt h1⟩
  · exact iff_of_false (by decide) (fun h => absurd h.1 h2)

theorem wind_level_safe (w : ℚ) : flagLevel (windOf w) = .safe ↔ w ≤ 40 := by
  unfold windOf
  split_ifs with h1 h2
  · exact iff_of_false (by decide)
      (fun h => absurd h1 (not_lt.mpr (h.trans (by norm_num))))
  · exact iff_of_false (by decide) (fun h => absurd h2 (not_lt.mpr h))
  · exact iff_of_true (by decide) (le_of_not_lt h2)

/-- C1.  For every day's record, each of the four stress flags is one of
exactly three rendered levels (Red = Alert, Yellow = Caution, Green = Safe),
assigned by strict threshold comparisons: heat is Alert iff `temp_max > 38`,
Caution iff `32 < temp_max ≤ 38`, else Safe; cold is Alert iff
`temp_min < 5`, Caution iff `5 ≤ temp_min < 10`, else Safe; water is Alert
iff `aridity_index < 0.5`, Caution iff `0.5 ≤ aridity_index < 1`, else Safe;
wind is Alert iff `wind_gusts > 60`, Caution iff `40 < wind_gusts ≤ 60`,
else Safe.  In particular `temp_max = 38.0` yields Caution and
`temp_max = 38.01` yields Alert. -/
theorem C1_stress_flag_thresholds (tmax tmin ai wg : ℚ) :
    ((classify_flags tmax tmin (some ai) wg).heat = "🔴 Red (Heat stress)" ∨
      (classify_flags tmax tmin (some ai) wg).heat = "🟡 Yellow (Mild stress)" ∨
      (classify_flags tmax tmin (some ai) wg).heat = "🟢 Green (Safe)") ∧
    ((classify_flags tmax tmin (some ai) wg).cold = "🔴 Red (Frost risk)" ∨
      (classify_flags tmax tmin (some ai) wg).cold = "🟡 Yellow (Chill stress)" ∨
      (classify_flags tmax tmin (some ai) wg).cold = "🟢 Green (Safe)") ∧
    ((classify_flags tmax tmin (some ai) wg).water = "🔴 Red (Irrigation needed)" ∨
      (classify_flags tmax tmin (some ai) wg).water = "🟡 Yellow (Monitor)" ∨
      (classify_flags tmax tmin (some ai) wg).water = "🟢 Green (Sufficient)") ∧
    ((classify_flags tmax tmin (some ai) wg).wind = "🔴 Red (Lodging risk)" ∨
      (classify_flags tmax tmin (some ai) wg).wind = "🟡 Yellow (Caution)" ∨
      (classify_flags tmax tmin (some ai) wg).wind = "🟢 Green (Safe)") ∧
    (flagLevel (classify_flags tmax tmin (some ai) wg).heat = .alert ↔ 38 < tmax) ∧
    (flagLevel (classify_flags tmax tmin (some ai) wg).heat = .caution ↔ 32 < tmax ∧ tmax ≤ 38) ∧
    (flagLevel (classify_flags tmax tmin (some ai) wg).heat = .safe ↔ tmax ≤ 32) ∧
    (flagLevel (classify_flags tmax tmin (some ai) wg).cold = .alert ↔ tmin < 5) ∧
    (flagLevel (classify_flags tmax tmin (some ai) wg).cold = .caution ↔ 5 ≤ tmin ∧ tmin < 10) ∧
    (flagLevel (classify_flags tmax tmin (some ai) wg).cold = .safe ↔ 10 ≤ tmin) ∧
    (flagLevel (classify_flags tmax tmin (some ai) wg).water = .alert ↔ ai < 0.5) ∧
    (flagLevel (classify_flags tmax tmin (some ai) wg).water = .caution ↔ 0.5 ≤ ai ∧ ai < 1) ∧
    (flagLevel (classify_flags tmax tmin (some ai) wg).water = .safe ↔ 1 ≤ ai) ∧
    (flagLevel (classify_flags tmax tmin (some ai) wg).wind = .alert ↔ 60 < wg) ∧
    (flagLevel (classify_flags tmax tmin (some ai) wg).wind = .caution ↔ 40 < wg ∧ wg ≤ 60) ∧
    (flagLevel (classify_flags tmax tmin (some ai) wg).wind = .safe ↔ wg ≤ 40) ∧
    flagLevel (classify_flags 38 tmin (some ai) wg).heat = .caution ∧
    flagLevel (classify_flags 38.01 tmin (some ai) wg).heat = .alert := by
  refine ⟨heatOf_mem tmax, coldOf_mem tmin, waterOf_mem (some ai), windOf_mem wg,
    heat_level_alert tmax, heat_level_caution tmax, heat_level_safe tmax,
    cold_level_alert tmin, cold_level_caution tmin, cold_level_safe tmin,
    water_level_alert ai, water_level_caution ai, water_level_safe ai,
    wind_level_alert wg, wind_level_caution wg, wind_level_safe wg, ?_, ?_⟩
  · exact (heat_level_caution 38).mpr (by norm_num)
  · exact (heat_level_alert 38.01).mpr (by norm_num)

/-! ### The `'Red'` marker in rendered flags

The verdict (agri_weather.py line 143) probes the concatenation of all
rendered flag sets for the substring `'Red'`; the warning extraction (line
149) probes each flag string individually.  The lemmas below reduce those
substring tests to the structural Alert level. -/

theorem redL_eq : "Red".toList = redL := by decide

theorem heatOf_red (t : ℚ) :
    occurs redL (heatOf t).toList = (flagLevel (heatOf t) == Level.alert) := by
  unfold heatOf
  split_ifs <;> decide

theorem coldOf_red (t : ℚ) :
    occurs redL (coldOf t).toList = (flagLevel (coldOf t) == Level.alert) := by
  unfold coldOf
  split_ifs <;> decide

theorem waterOf_red (ai : Option ℚ) :
    occurs redL (waterOf ai).toList = (flagLevel (waterOf ai) == Level.alert) := by
  cases ai with
  | none => decide
  | some x =>
    rw [waterOf_some]
    split_ifs <;> decide

theorem windOf_red (w : ℚ) :
    occurs redL (windOf w).toList = (flagLevel (windOf w) == Level.alert) := by
  unfold windOf
  split_ifs <;> decide

theorem heatOf_last (t : ℚ) : (heatOf t).toList.getLast? = some ')' := by
  unfold heatOf
  split_ifs <;> decide

theorem coldOf_last (t : ℚ) : (coldOf t).toList.getLast? = some ')' := by
  unfold coldOf
  split_ifs <;> decide

theorem waterOf_last (ai : Option ℚ) : (waterOf ai).toList.getLast? = some ')' := by
  cases ai with
  | none => decide
  | some x =>
    rw [waterOf_some]
    split_ifs <;> decide

theorem windOf_last (w : ℚ) : (windOf w).toList.getLast? = some ')' := by
  unfold windOf
  split_ifs <;> decide

theorem windOf_ne_nil (w : ℚ) : (windOf w).toList ≠ [] := by
  unfold windOf
  split_ifs <;> decide

/-- `'Red'` cannot straddle an append boundary whose left side does not end
in `'R'` or in `'e'`; there the occurrence test distributes over `++`. -/
theorem occurs_red_append (a b : List Char)
    (ha : a.getLast? ≠ some 'R' ∧ a.getLast? ≠ some 'e') :
    occurs redL (a ++ b) = true ↔
      (occurs redL a = true ∨ occurs redL b = true) := by
  constructor
  · intro h
    rcases occurs_split redL a b h with h' | h' | ⟨p, q, u, hpq, hp, hq, rfl⟩
    · exact Or.inl h'
    · exact Or.inr h'
    · rcases red_splits p q hpq.symm hp hq with rfl | rfl
      · exact absurd (getLast?_append_right u ['R'] (by simp)) ha.1
      · exact absurd (getLast?_append_right u ['R', 'e'] (by simp)) ha.2
  · rintro (h | h)
    · exact occurs_append_left b h
    · exact occurs_append_right a h

theorem sep_last : (", " : String).toList.getLast? = some ' ' := by decide

theorem sep_no_red : occurs redL (", " : String).toList = false := by decide

theorem occurs_false_or {a b : Bool} (h : a = false) :
    (a = true ∨ b = true) ↔ b = true := by
  simp [h]

/-- Over a classified flag set, the `'Red'`-in-rendered-dict test of the
verdict equals the structural any-axis-at-Alert test. -/
theorem flagsStr_red (tmax tmin : ℚ) (ai : Option ℚ) (wg : ℚ) :
    occurs redL (flagsStr (classify_flags tmax tmin ai wg)).toList = true ↔
      hasAlert (classify_flags tmax tmin ai wg) = true := by
  have hsep : ((", " : String).toList.getLast? ≠ some 'R') ∧
      ((", " : String).toList.getLast? ≠ some 'e') := by decide
  have expand : (flagsStr (classify_flags tmax tmin ai wg)).toList =
      (heatOf tmax).toList ++ (((", " : String).toList) ++ ((coldOf tmin).toList ++
        (((", " : String).toList) ++ ((waterOf ai).toList ++
          (((", " : String).toList) ++ (windOf wg).toList))))) := by
    simp only [flagsStr, classify_flags, toList_append, List.append_assoc]
  rw [expand]
  rw [occurs_red_append _ _ (by rw [heatOf_last]; exact ⟨by decide, by decide⟩)]
  rw [occurs_red_append _ _ (by rw [sep_last]; exact ⟨by decide, by decide⟩)]
  rw [occurs_red_append _ _ (by rw [coldOf_last]; exact ⟨by decide, by decide⟩)]
  rw [occurs_red_append _ _ (by rw [sep_last]; exact ⟨by decide, by decide⟩)]
  rw [occurs_red_append _ _ (by rw [waterOf_last]; exact ⟨by decide, by decide⟩)]
  rw [occurs_red_append _ _ (by rw [sep_last]; exact ⟨by decide, by decide⟩)]
  rw [heatOf_red, coldOf_red, waterOf_red, windOf_red]
  simp only [sep_no_red, hasAlert, classify_flags, Bool.or_eq_true, beq_iff_eq]
  tauto

theorem flagsStr_last (tmax tmin : ℚ) (ai : Option ℚ) (wg : ℚ) :
    (flagsStr (classify_flags tmax tmin ai wg)).toList.getLast? = some ')' := by
  have expand : (flagsStr (classify_flags tmax tmin ai wg)).toList =
      ((heatOf tmax).toList ++ ((", " : String).toList) ++ (coldOf tmin).toList ++
        ((", " : String).toList) ++ (waterOf ai).toList ++ ((", " : String).toList)) ++
        (windOf wg).toList := by
    simp only [flagsStr, classify_flags, toList_append, List.append_assoc]
  rw [expand, getLast?_append_right _ _ (windOf_ne_nil wg), windOf_last]

/-- The verdict's substring probe over the joined flag dicts of all days
finds `'Red'` exactly when some day has an Alert-level axis. -/
theorem join_red (fls : List Flags) (h : ∀ f ∈ fls, IsClassified f) :
    strHas (joinAll (fls.map flagsStr)) "Red" = true ↔
      ∃ f ∈ fls, hasAlert f = true := by
  induction fls with
  | nil =>
    constructor
    · intro hc
      exact absurd hc (by decide)
    · rintro ⟨f, hf, _⟩
      exact absurd hf (List.not_mem_nil f)
  | cons f rest ih =>
    obtain ⟨a, b, c, d, hf⟩ := h f (List.mem_cons_self f rest)
    have hlast : (flagsStr f).toList.getLast? = some ')' := by
      rw [← hf]
      exact flagsStr_last a b c d
    have hred : occurs redL (flagsStr f).toList = true ↔ hasAlert f = true := by
      rw [← hf]
      exact flagsStr_red a b c d
    have hrest := ih (fun g hg => h g (List.mem_cons_of_mem f hg))
    simp only [List.map_cons, joinAll, strHas, redL_eq, toList_append] at *
    rw [occurs_red_append _ _ (by rw [hlast]; exact ⟨by decide, by decide⟩)]
    constructor
    · rintro (hc | hc)
      · exact ⟨f, List.mem_cons_self f rest, hred.mp hc⟩
      · obtain ⟨g, hg, hga⟩ := hrest.mp hc
        exact ⟨g, List.mem_cons_of_mem f hg, hga⟩
    · rintro ⟨g, hg, hga⟩
      rcases List.mem_cons.mp hg with rfl | hg'
      · exact Or.inl (hred.mpr hga)
      · exact Or.inr (hrest.mpr ⟨g, hg', hga⟩)

/-- On classified flag sets, the per-flag `'Red'` probe of the warning
extraction coincides with the any-axis-Alert test. -/
theorem anyFlagRed_eq_hasAlert (tmax tmin : ℚ) (ai : Option ℚ) (wg : ℚ) :
    anyFlagRed (classify_flags tmax tmin ai wg) = hasAlert (classify_flags tmax tmin ai wg) := by
  have hh := heatOf_red tmax
  have hc := coldOf_red tmin
  have hw := waterOf_red ai
  have hwi := windOf_red wg
  simp only [anyFlagRed, hasAlert, classify_flags, strHas, redL_eq]
  rw [hh, hc, hw, hwi]

/-! ### Unfolding the pipeline -/

theorem applyRecs_some (cn : String) (table : List (String × List CropRule)) :
    ∀ rows : List Row,
      applyRecs (some cn) table rows = .ok (rows.map fun r => (r, recText cn table r)) := by
  intro rows
  induction rows with
  | nil => rfl
  | cons r rest ih =>
    simp only [applyRecs, crop_recommendation, ih, Except.map, List.map_cons]

theorem applyRecs_none (table : List (String × List CropRule)) (rows : List Row)
    (h : rows ≠ []) : applyRecs none table rows = .error attrErrMsg := by
  cases rows with
  | nil => exact absurd rfl h
  | cons r rest => rfl

theorem annRows_length (fsqrt : ℚ → ℚ) (daily : List DailyIn)
    (hourly : List (String × ℚ)) : (annRows fsqrt daily hourly).length = daily.length := by
  simp [annRows, List.length_zip, fillHumidity_length]

theorem annRows_dates (fsqrt : ℚ → ℚ) (daily : List DailyIn)
    (hourly : List (String × ℚ)) :
    (annRows fsqrt daily hourly).map (·.date) = daily.map (·.date) := by
  have hlen : daily.length ≤
      (fillHumidity (daily.map (fun d => meanHumidity hourly d.date))).length := by
    rw [fillHumidity_length, List.length_map]
  calc (annRows fsqrt daily hourly).map (·.date)
      = ((daily.zip (fillHumidity (daily.map (fun d => meanHumidity hourly d.date)))).map
          Prod.fst).map (·.date) := by
        simp only [annRows, List.map_map]
        exact List.map_congr_left fun p _ => rfl
    _ = daily.map (·.date) := by rw [List.map_fst_zip _ _ hlen]

theorem annRows_flags_classified (fsqrt : ℚ → ℚ) (daily : List DailyIn)
    (hourly : List (String × ℚ)) :
    ∀ r ∈ annRows fsqrt daily hourly, IsClassified r.flags := by
  intro r hr
  obtain ⟨p, _, rfl⟩ := List.mem_map.mp hr
  exact ⟨p.1.temp_max, p.1.temp_min, _, p.1.wind_gusts, rfl⟩

theorem annRows_flags_eq (fsqrt : ℚ → ℚ) (daily : List DailyIn)
    (hourly : List (String × ℚ)) :
    ∀ r ∈ annRows fsqrt daily hourly,
      r.flags = classify_flags r.temp_max r.temp_min r.aridity_index r.wind_gusts := by
  intro r hr
  obtain ⟨p, _, rfl⟩ := List.mem_map.mp hr
  rfl

theorem isEmpty_false_of_ne_nil {α : Type} {l : List α} (h : l ≠ []) :
    l.isEmpty = false := by
  cases l with
  | nil => exact absurd rfl h
  | cons a l' => rfl

/-- The full evaluated shape of the pipeline when a crop name is present:
the request always succeeds (for a non-empty daily frame) and each component
of the output is the corresponding map over the annotated rows. -/
theorem pipeline_some (fsqrt : ℚ → ℚ) (cn : String) (entries : List CropEntry)
    (daily : List DailyIn) (hourly : List (String × ℚ)) (h : daily ≠ []) :
    get_agri_weather_forecast fsqrt (some cn) entries daily hourly = .ok
      { summary := "Overall conditions appear " ++
          summaryVerdict ((annRows fsqrt daily hourly).map (·.flags)) ++ "."
        key_insights :=
          if (criticalWarnings ((annRows fsqrt daily hourly).map
              (fun r => (r, recText cn (buildCropRules entries) r)))).isEmpty then
            [noWarningsMsg]
          else
            criticalWarnings ((annRows fsqrt daily hourly).map
              (fun r => (r, recText cn (buildCropRules entries) r)))
        daily_forecast := (annRows fsqrt daily hourly).map
          (fun r => finalizeRow r (recText cn (buildCropRules entries) r)) } := by
  unfold get_agri_weather_forecast
  rw [if_neg (by rw [isEmpty_false_of_ne_nil h]; exact Bool.false_ne_true)]
  rw [applyRecs_some]
  simp only [List.map_map]
  rfl

theorem exists_flags_iff (rows : List Row) :
    (∃ f ∈ rows.map (·.flags), hasAlert f = true) ↔
      ∃ r ∈ rows, hasAlert r.flags = true := by
  constructor
  · rintro ⟨f, hf, hA⟩
    obtain ⟨r, hr, rfl⟩ := List.mem_map.mp hf
    exact ⟨r, hr, hA⟩
  · rintro ⟨r, hr, hA⟩
    exact ⟨r.flags, List.mem_map.mpr ⟨r, hr, rfl⟩, hA⟩

unseal Rat.add Rat.mul Rat.inv Rat.sub Rat.ofScientific in
/-- C2 (counterexample).  A forecast whose flags are all below Alert but
whose recommendation carries an Alert-severity entry (`"[RED] spray"`) is
reported as *favorable*: line 143 of agri_weather.py probes only the flags
column, never the recommendation texts, so the claimed iff fails. -/
theorem C2_verdict_counterexample :
    (get_agri_weather_forecast (fun _ => 0) (some "paddy")
        [⟨"paddy", [], [⟨fun _ => some true, "Red", "spray"⟩]⟩]
        [⟨"2025-01-01", 20, 20, 1, 0, 0⟩] []).toOption.map
        (fun o => (o.summary, o.daily_forecast.map (·.recommendations))) =
      some ("Overall conditions appear favorable.", ["[RED] spray"]) ∧
    strHas "[RED] spray" "RED" = true := by
  exact ⟨by decide, by decide⟩

/-- C2 (amended).  The summary's verdict is `challenging` if and only if an
Alert-level marker appears in at least one day's stress flags; the
recommendation texts are not consulted, so a forecast whose flags are all
below Alert is reported `favorable` even when a recommendation carries an
Alert-severity entry.  The verdict is always one of these two words. -/
theorem C2_verdict_flags_only (fsqrt : ℚ → ℚ) (cn : String)
    (entries : List CropEntry) (daily : List DailyIn) (hourly : List (String × ℚ))
    (h : daily ≠ []) :
    ∃ out, get_agri_weather_forecast fsqrt (some cn) entries daily hourly = .ok out ∧
      (out.summary = "Overall conditions appear challenging." ↔
        ∃ r ∈ annRows fsqrt daily hourly, hasAlert r.flags = true) ∧
      (out.summary = "Overall conditions appear challenging." ∨
        out.summary = "Overall conditions appear favorable.") := by
  refine ⟨_, pipeline_some fsqrt cn entries daily hourly h, ?_, ?_⟩
  · have hcl : ∀ f ∈ (annRows fsqrt daily hourly).map (·.flags), IsClassified f := by
      intro f hf
      obtain ⟨r, hr, rfl⟩ := List.mem_map.mp hf
      exact annRows_flags_classified fsqrt daily hourly r hr
    have hjoin := (join_red ((annRows fsqrt daily hourly).map (·.flags)) hcl).trans
      (exists_flags_iff (annRows fsqrt daily hourly))
    show ("Overall conditions appear " ++
        summaryVerdict ((annRows fsqrt daily hourly).map (·.flags)) ++ ".") = _ ↔ _
    unfold summaryVerdict
    split_ifs with hred
    · exact iff_of_true rfl (hjoin.mp hred)
    · refine iff_of_false (by decide) ?_
      intro hex
      exact hred (hjoin.mpr hex)
  · show ("Overall conditions appear " ++
        summaryVerdict ((annRows fsqrt daily hourly).map (·.flags)) ++ ".") = _ ∨
      ("Overall conditions appear " ++
        summaryVerdict ((annRows fsqrt daily hourly).map (·.flags)) ++ ".") = _
    unfold summaryVerdict
    split_ifs
    · exact Or.inl rfl
    · exact Or.inr rfl

/-- Witness for C2 (amended) at a concrete input. -/
theorem C2_verdict_flags_only_witness :
    ∃ out, get_agri_weather_forecast (fun _ => 0) (some "wheat") []
        [⟨"2025-01-01", 20, 20, 1, 0, 0⟩] [] = .ok out ∧
      (out.summary = "Overall conditions appear challenging." ↔
        ∃ r ∈ annRows (fun _ => 0) [⟨"2025-01-01", 20, 20, 1, 0, 0⟩] [],
          hasAlert r.flags = true) ∧
      (out.summary = "Overall conditions appear challenging." ∨
        out.summary = "Overall conditions appear favorable.") :=
  C2_verdict_flags_only (fun _ => 0) "wheat" [] [⟨"2025-01-01", 20, 20, 1, 0, 0⟩] []
    (List.cons_ne_nil _ _)

unseal Rat.add Rat.mul Rat.inv Rat.sub Rat.ofScientific in
/-- C9 (counterexample).  The pipeline does not sort: fed two observations
whose dates are in descending order, the output records keep exactly that
descending order, so the output is not ordered by date ascending. -/
theorem C9_order_counterexample :
    (get_agri_weather_forecast (fun _ => 0) (some "x") []
        [⟨"2025-01-02", 20, 20, 1, 0, 0⟩, ⟨"2025-01-01", 20, 20, 1, 0, 0⟩]
        []).toOption.map (fun o => o.daily_forecast.map (·.date)) =
      some ["2025-01-02", "2025-01-01"] ∧
    strLt "2025-01-02" "2025-01-01" = false := by
  exact ⟨by decide, by decide⟩

/-- C9 (amended).  For every non-empty input sequence of daily observations,
the output records carry exactly the input dates, in the input order: no day
is dropped and no day is duplicated (the humidity merge neither removes nor
multiplies rows), and the output is ordered by date ascending whenever the
input sequence is — the pipeline preserves order rather than sorting. -/
theorem C9_dates_preserved (fsqrt : ℚ → ℚ) (cn : String) (entries : List CropEntry)
    (daily : List DailyIn) (hourly : List (String × ℚ)) (h : daily ≠ []) :
    ∃ out, get_agri_weather_forecast fsqrt (some cn) entries daily hourly = .ok out ∧
      out.daily_forecast.map (·.date) = daily.map (·.date) ∧
      (List.Pairwise (fun a b => strLt a b = true) (daily.map (·.date)) →
        List.Pairwise (fun a b => strLt a b = true) (out.daily_forecast.map (·.date))) := by
  refine ⟨_, pipeline_some fsqrt cn entries daily hourly h, ?_⟩
  have heq : (((annRows fsqrt daily hourly).map
      (fun r => finalizeRow r (recText cn (buildCropRules entries) r))).map (·.date)) =
      daily.map (·.date) := by
    rw [List.map_map]
    calc ((annRows fsqrt daily hourly).map
          ((·.date) ∘ fun r => finalizeRow r (recText cn (buildCropRules entries) r)))
        = (annRows fsqrt daily hourly).map (·.date) :=
          List.map_congr_left (fun r _ => rfl)
      _ = daily.map (·.date) := annRows_dates fsqrt daily hourly
  exact ⟨heq, fun hp => heq ▸ hp⟩

/-- Witness for C9 (amended) at a concrete input. -/
theorem C9_dates_preserved_witness :
    ∃ out, get_agri_weather_forecast (fun _ => 0) (some "rice") []
        [⟨"2025-03-01", 10, 10, 0, 0, 0⟩] [] = .ok out ∧
      out.daily_forecast.map (·.date) =
        ([⟨"2025-03-01", 10, 10, 0, 0, 0⟩] : List DailyIn).map (·.date) ∧
      (List.Pairwise (fun a b => strLt a b = true)
          (([⟨"2025-03-01", 10, 10, 0, 0, 0⟩] : List DailyIn).map (·.date)) →
        List.Pairwise (fun a b => strLt a b = true)
          (out.daily_forecast.map (·.date))) :=
  C9_dates_preserved (fun _ => 0) "rice" [] [⟨"2025-03-01", 10, 10, 0, 0, 0⟩] []
    (List.cons_ne_nil _ _)

unseal Rat.add Rat.mul Rat.inv Rat.sub Rat.ofScientific in
/-- C3 (counterexample).  The final per-day records are rounded with
`df.round(2)`, not to one decimal place: the input `temp_max = 33.25` is
returned as `33.25`, which is not equal to its one-decimal rounding. -/
theorem C3_rounding_counterexample :
    (get_agri_weather_forecast (fun _ => 0) (some "x") []
        [⟨"2025-01-01", 33.25, 33.25, 0, 0, 0⟩] []).toOption.map
        (fun o => o.daily_forecast.map (·.temp_max)) = some [(33.25 : ℚ)] ∧
    dfRound 1 (33.25 : ℚ) ≠ (33.25 : ℚ) := by
  exact ⟨by decide, by decide⟩

/-- C3 (amended).  Every floating-point field of the final per-day records
is rounded to TWO decimal places (`df.round(2)`) before being returned, and
the rounding is presentation-only: the flags column equals the classifier
applied to the full-precision values and the recommendation texts are
computed from the full-precision rows, so rounding never feeds back into
flag classification or rule evaluation. -/
theorem C3_rounding_presentation_only (fsqrt : ℚ → ℚ) (cn : String)
    (entries : List CropEntry) (daily : List DailyIn) (hourly : List (String × ℚ))
    (h : daily ≠ []) :
    ∃ out, get_agri_weather_forecast fsqrt (some cn) entries daily hourly = .ok out ∧
      List.Forall₂ (fun (r : Row) (o : OutRow) =>
          o.temp_max = round2 r.temp_max ∧ o.temp_min = round2 r.temp_min ∧
          o.precip_mm = round2 r.precip_mm ∧ o.wind_speed = round2 r.wind_speed ∧
          o.wind_gusts = round2 r.wind_gusts ∧ o.temp = round2 r.temp ∧
          o.humidity = r.humidity.map round2 ∧ o.et0 = r.et0.map round2 ∧
          o.aridity_index = r.aridity_index.map round2 ∧
          o.flags = classify_flags r.temp_max r.temp_min r.aridity_index r.wind_gusts ∧
          o.recommendations = recText cn (buildCropRules entries) r)
        (annRows fsqrt daily hourly) out.daily_forecast := by
  refine ⟨_, pipeline_some fsqrt cn entries daily hourly h, ?_⟩
  rw [List.forall₂_map_right_iff, List.forall₂_same]
  intro r hr
  exact ⟨rfl, rfl, rfl, rfl, rfl, rfl, rfl, rfl, rfl,
    annRows_flags_eq fsqrt daily hourly r hr, rfl⟩

/-- Witness for C3 (amended) at a concrete input. -/
theorem C3_rounding_presentation_only_witness :
    ∃ out, get_agri_weather_forecast (fun _ => 0) (some "maize") []
        [⟨"2025-01-01", 33.25, 33.25, 0, 0, 0⟩] [] = .ok out ∧
      List.Forall₂ (fun (r : Row) (o : OutRow) =>
          o.temp_max = round2 r.temp_max ∧ o.temp_min = round2 r.temp_min ∧
          o.precip_mm = round2 r.precip_mm ∧ o.wind_speed = round2 r.wind_speed ∧
          o.wind_gusts = round2 r.wind_gusts ∧ o.temp = round2 r.temp ∧
          o.humidity = r.humidity.map round2 ∧ o.et0 = r.et0.map round2 ∧
          o.aridity_index = r.aridity_index.map round2 ∧
          o.flags = classify_flags r.temp_max r.temp_min r.aridity_index r.wind_gusts ∧
          o.recommendations = recText "maize" (buildCropRules []) r)
        (annRows (fun _ => 0) [⟨"2025-01-01", 33.25, 33.25, 0, 0, 0⟩] [])
        out.daily_forecast :=
  C3_rounding_presentation_only (fun _ => 0) "maize" []
    [⟨"2025-01-01", 33.25, 33.25, 0, 0, 0⟩] [] (List.cons_ne_nil _ _)

/-! ### C4: there is no missing-crop fallback -/

theorem annRows_ne_nil (fsqrt : ℚ → ℚ) (daily : List DailyIn)
    (hourly : List (String × ℚ)) (h : daily ≠ []) :
    annRows fsqrt daily hourly ≠ [] := by
  intro hc
  apply h
  have := annRows_length fsqrt daily hourly
  rw [hc] at this
  exact List.length_eq_zero.mp this.symm

/-- C4 (counterexample).  With no crop name supplied (`None`), the analysis
does not substitute any fixed general-weather text: `crop_name.lower()`
raises an uncaught `AttributeError` inside the per-row apply, aborting the
whole request before any recommendation, flag or metric is returned. -/
theorem C4_no_crop_counterexample :
    get_agri_weather_forecast (fun _ => 0) none [] [⟨"2025-01-01", 20, 20, 1, 0, 0⟩] [] =
      .error attrErrMsg := rfl

/-- C4 (amended).  The analysis has no general-weather fallback: `crop_name`
is effectively required.  For every non-empty input, running the analysis
with an absent (`None`) crop name aborts with the modelled `AttributeError`
— rule evaluation is not skipped in favour of a fixed text, and no flags or
derived metrics are returned (an empty-string crop name instead takes the
unresolvable-crop path of C6). -/
theorem C4_no_crop_aborts (fsqrt : ℚ → ℚ) (entries : List CropEntry)
    (daily : List DailyIn) (hourly : List (String × ℚ)) (h : daily ≠ []) :
    get_agri_weather_forecast fsqrt none entries daily hourly = .error attrErrMsg := by
  unfold get_agri_weather_forecast
  rw [if_neg (by rw [isEmpty_false_of_ne_nil h]; exact Bool.false_ne_true)]
  rw [applyRecs_none _ _ (annRows_ne_nil fsqrt daily hourly h)]

/-- Witness for C4 (amended) at a concrete input. -/
theorem C4_no_crop_aborts_witness :
    get_agri_weather_forecast (fun _ => 0) none [] [⟨"2025-02-01", 25, 12, 3, 5, 10⟩] [] =
      .error attrErrMsg :=
  C4_no_crop_aborts (fun _ => 0) [] [⟨"2025-02-01", 25, 12, 3, 5, 10⟩] []
    (List.cons_ne_nil _ _)

/-! ### C5: critical-warning extraction -/

/-- Spec-side warning extraction: a day is critical iff some stress flag is
at Alert level or the recommendation text carries the Alert-severity marker
`"RED"`. -/
def specWarnings (pairs : List (Row × String)) : List String :=
  pairs.filterMap fun p =>
    if hasAlert p.1.flags || strHas p.2 "RED" then
      some ("On " ++ p.1.date ++ ": " ++ p.2)
    else none

theorem criticalWarnings_eq_specWarnings (pairs : List (Row × String))
    (hcl : ∀ p ∈ pairs, IsClassified p.1.flags) :
    criticalWarnings pairs = specWarnings pairs := by
  unfold criticalWarnings specWarnings
  apply List.filterMap_congr
  intro p hp
  obtain ⟨a, b, c, d, hf⟩ := hcl p hp
  have : isCritical p.1.flags p.2 = (hasAlert p.1.flags || strHas p.2 "RED") := by
    unfold isCritical
    rw [← hf, anyFlagRed_eq_hasAlert, Bool.or_comm]
  rw [this]

theorem key_insights_cases (ws : List String) :
    ((if ws.isEmpty then [noWarningsMsg] else ws) ≠ []) ∧
    (ws ≠ [] → (if ws.isEmpty then [noWarningsMsg] else ws) = ws) ∧
    (ws = [] → (if ws.isEmpty then [noWarningsMsg] else ws) = [noWarningsMsg]) := by
  by_cases hnil : ws = []
  · subst hnil
    exact ⟨by simp [noWarningsMsg], fun hcon => absurd rfl hcon, fun _ => by simp⟩
  · have hw : ws.isEmpty = false := by simpa [List.isEmpty_iff] using hnil
    rw [hw]
    exact ⟨by simpa using hnil, fun _ => by simp, fun hcon => absurd hcon hnil⟩

/-- C5.  A critical warning `"On <date>: <recommendation>"` is emitted for a
day iff some stress flag of that day is at Alert level or the recommendation
text carries the Alert-severity marker, and the returned warning list is
never empty: when no day qualifies it is exactly the fixed
no-critical-warnings sentence. -/
theorem C5_critical_warnings (fsqrt : ℚ → ℚ) (cn : String) (entries : List CropEntry)
    (daily : List DailyIn) (hourly : List (String × ℚ)) (h : daily ≠ []) :
    ∃ out, get_agri_weather_forecast fsqrt (some cn) entries daily hourly = .ok out ∧
      out.key_insights ≠ [] ∧
      (specWarnings ((annRows fsqrt daily hourly).map
          (fun r => (r, recText cn (buildCropRules entries) r))) ≠ [] →
        out.key_insights = specWarnings ((annRows fsqrt daily hourly).map
          (fun r => (r, recText cn (buildCropRules entries) r)))) ∧
      (specWarnings ((annRows fsqrt daily hourly).map
          (fun r => (r, recText cn (buildCropRules entries) r))) = [] →
        out.key_insights = [noWarningsMsg]) := by
  refine ⟨_, pipeline_some fsqrt cn entries daily hourly h, ?_⟩
  have hcl : ∀ p ∈ (annRows fsqrt daily hourly).map
      (fun r => (r, recText cn (buildCropRules entries) r)), IsClassified p.1.flags := by
    intro p hp
    obtain ⟨r, hr, rfl⟩ := List.mem_map.mp hp
    exact annRows_flags_classified fsqrt daily hourly r hr
  have heq := criticalWarnings_eq_specWarnings _ hcl
  rw [heq]
  exact key_insights_cases (specWarnings ((annRows fsqrt daily hourly).map
    (fun r => (r, recText cn (buildCropRules entries) r))))

/-- Witness for C5 at a concrete input. -/
theorem C5_critical_warnings_witness :
    ∃ out, get_agri_weather_forecast (fun _ => 0) (some "bajra") []
        [⟨"2025-04-01", 39, 39, 1, 0, 0⟩] [] = .ok out ∧
      out.key_insights ≠ [] ∧
      (specWarnings ((annRows (fun _ => 0) [⟨"2025-04-01", 39, 39, 1, 0, 0⟩] []).map
          (fun r => (r, recText "bajra" (buildCropRules []) r))) ≠ [] →
        out.key_insights = specWarnings
          ((annRows (fun _ => 0) [⟨"2025-04-01", 39, 39, 1, 0, 0⟩] []).map
            (fun r => (r, recText "bajra" (buildCropRules []) r)))) ∧
      (specWarnings ((annRows (fun _ => 0) [⟨"2025-04-01", 39, 39, 1, 0, 0⟩] []).map
          (fun r => (r, recText "bajra" (buildCropRules []) r))) = [] →
        out.key_insights = [noWarningsMsg]) :=
  C5_critical_warnings (fun _ => 0) "bajra" [] [⟨"2025-04-01", 39, 39, 1, 0, 0⟩] []
    (List.cons_ne_nil _ _)

/-! ### C6: unresolvable crop names degrade per day, the analysis continues -/

theorem recText_of_missing (cn : String) (table : List (String × List CropRule))
    (row : Row) (hkb : dictGet table (lowerStr cn) = none) :
    recText cn table row = noKbMsg cn := by
  unfold recText
  rw [hkb]

theorem finalized_dates (fsqrt : ℚ → ℚ) (cn : String) (entries : List CropEntry)
    (daily : List DailyIn) (hourly : List (String × ℚ)) :
    (((annRows fsqrt daily hourly).map
        (fun r => finalizeRow r (recText cn (buildCropRules entries) r))).map (·.date)) =
      daily.map (·.date) := by
  rw [List.map_map]
  calc ((annRows fsqrt daily hourly).map
        ((·.date) ∘ fun r => finalizeRow r (recText cn (buildCropRules entries) r)))
      = (annRows fsqrt daily hourly).map (·.date) :=
        List.map_congr_left (fun r _ => rfl)
    _ = daily.map (·.date) := annRows_dates fsqrt daily hourly

/-- C6.  For every crop name that does not resolve in the loaded knowledge
base, the analysis does not abort: it returns a result in which every day's
recommendation is the no-knowledge-base message for that crop, while the
dates, rounded weather fields and the stress flags computed from the
full-precision derived metrics are all still present. -/
theorem C6_unresolvable_crop (fsqrt : ℚ → ℚ) (cn : String) (entries : List CropEntry)
    (daily : List DailyIn) (hourly : List (String × ℚ)) (h : daily ≠ [])
    (hkb : dictGet (buildCropRules entries) (lowerStr cn) = none) :
    ∃ out, get_agri_weather_forecast fsqrt (some cn) entries daily hourly = .ok out ∧
      (∀ o ∈ out.daily_forecast, o.recommendations = noKbMsg cn) ∧
      out.daily_forecast.map (·.date) = daily.map (·.date) ∧
      List.Forall₂ (fun (r : Row) (o : OutRow) =>
          o.flags = classify_flags r.temp_max r.temp_min r.aridity_index r.wind_gusts ∧
          o.temp_max = round2 r.temp_max ∧ o.temp_min = round2 r.temp_min ∧
          o.precip_mm = round2 r.precip_mm ∧ o.wind_speed = round2 r.wind_speed ∧
          o.wind_gusts = round2 r.wind_gusts ∧ o.humidity = r.humidity.map round2)
        (annRows fsqrt daily hourly) out.daily_forecast := by
  refine ⟨_, pipeline_some fsqrt cn entries daily hourly h, ?_, ?_, ?_⟩
  · intro o ho
    obtain ⟨r, _, rfl⟩ := List.mem_map.mp ho
    show recText cn (buildCropRules entries) r = noKbMsg cn
    exact recText_of_missing cn (buildCropRules entries) r hkb
  · exact finalized_dates fsqrt cn entries daily hourly
  · rw [List.forall₂_map_right_iff, List.forall₂_same]
    intro r hr
    exact ⟨annRows_flags_eq fsqrt daily hourly r hr, rfl, rfl, rfl, rfl, rfl, rfl⟩

/-- Witness for C6 at a concrete input (empty knowledge base, crop `rice`). -/
theorem C6_unresolvable_crop_witness :
    ∃ out, get_agri_weather_forecast (fun _ => 0) (some "rice") []
        [⟨"2025-05-01", 30, 18, 2, 4, 12⟩] [] = .ok out ∧
      (∀ o ∈ out.daily_forecast, o.recommendations = noKbMsg "rice") ∧
      out.daily_forecast.map (·.date) =
        ([⟨"2025-05-01", 30, 18, 2, 4, 12⟩] : List DailyIn).map (·.date) ∧
      List.Forall₂ (fun (r : Row) (o : OutRow) =>
          o.flags = classify_flags r.temp_max r.temp_min r.aridity_index r.wind_gusts ∧
          o.temp_max = round2 r.temp_max ∧ o.temp_min = round2 r.temp_min ∧
          o.precip_mm = round2 r.precip_mm ∧ o.wind_speed = round2 r.wind_speed ∧
          o.wind_gusts = round2 r.wind_gusts ∧ o.humidity = r.humidity.map round2)
        (annRows (fun _ => 0) [⟨"2025-05-01", 30, 18, 2, 4, 12⟩] [])
        out.daily_forecast :=
  C6_unresolvable_crop (fun _ => 0) "rice" [] [⟨"2025-05-01", 30, 18, 2, 4, 12⟩] []
    (List.cons_ne_nil _ _) rfl

/-! ### C7: per-day rule evaluation -/

theorem filterMap_if {α β : Type} (l : List α) (p : α → Bool) (g : α → β) :
    l.filterMap (fun a => if p a then some (g a) else none) = (l.filter p).map g := by
  induction l with
  | nil => rfl
  | cons a rest ih =>
    cases hp : p a <;>
      simp [List.filterMap_cons, List.filter_cons, hp, ih]

/-- Spec-side per-day recommendation: the rules whose condition evaluates to
true, rendered `"[SEVERITY] advisory"` and joined in declared order; the
fixed favorable text when none matches.  Rules whose condition raises
(`none`) or is false are simply not in the filter. -/
def specRecommendation (rules : List CropRule) (row : Row) : String :=
  if (rules.filter (fun r => r.whenCond row == some true)).isEmpty then favorableMsg
  else String.intercalate " | "
    ((rules.filter (fun r => r.whenCond row == some true)).map renderRule)

theorem evalRules_eq_spec (rules : List CropRule) (row : Row) :
    evalRules rules row = specRecommendation rules row := by
  unfold evalRules specRecommendation
  rw [filterMap_if rules (fun r => r.whenCond row == some true) renderRule]
  rcases hf : rules.filter (fun r => r.whenCond row == some true) with _ | ⟨a, rest⟩ <;>
    simp [hf]

/-- C7.  Per-day rule evaluation is total and order-preserving: when the
crop resolves to a non-empty rule set, the evaluation always returns a
recommendation (never an error); it equals the rendering of exactly the
rules whose condition evaluates to true, as `"[SEVERITY] advisory"` with the
severity uppercased, joined with `" | "` in the rule set's declared order;
a rule whose condition raises is treated as non-matching and the following
rules are still evaluated (deleting such a rule does not change the
result); and when no rule matches the result is the fixed
favorable-conditions text. -/
theorem C7_rule_evaluation (cn : String) (table : List (String × List CropRule))
    (row : Row) (rules : List CropRule)
    (hlook : dictGet table (lowerStr cn) = some rules) (hne : rules ≠ []) :
    (recText cn table row = specRecommendation rules row) ∧
    (crop_recommendation (some cn) table row = .ok (specRecommendation rules row)) ∧
    (∀ pre post : List CropRule, ∀ r : CropRule, r.whenCond row = none →
      specRecommendation (pre ++ r :: post) row = specRecommendation (pre ++ post) row) ∧
    ((rules.filter (fun r => r.whenCond row == some true)).isEmpty →
      specRecommendation rules row = favorableMsg) ∧
    (∀ r : CropRule, renderRule r = "[" ++ upperStr r.severity ++ "] " ++ r.advisory) := by
  have hrec : recText cn table row = specRecommendation rules row := by
    unfold recText
    rw [hlook]
    show (if rules.isEmpty then noKbMsg cn else evalRules rules row) = _
    rw [if_neg (by simpa [List.isEmpty_iff] using hne)]
    exact evalRules_eq_spec rules row
  refine ⟨hrec, ?_, ?_, ?_, fun r => rfl⟩
  · show Except.ok (recText cn table row) = _
    rw [hrec]
  · intro pre post r hr
    unfold specRecommendation
    have hcond : (r.whenCond row == some true) = false := by
      rw [hr]
      rfl
    simp [List.filter_append, List.filter_cons, hcond]
  · intro hempty
    unfold specRecommendation
    rw [if_pos hempty]

/-- Witness for C7: a two-rule set whose first condition raises and whose
second matches still yields exactly the second rule's rendered advisory. -/
theorem C7_rule_evaluation_witness :
    (recText "wheat"
        [("wheat", [⟨fun _ => none, "red", "bad rule"⟩,
          ⟨fun _ => some true, "high", "frost risk, delay sowing"⟩])]
        { date := "2025-01-01", temp_max := 3, temp_min := 3, precip_mm := 0,
          wind_speed := 0, wind_gusts := 0, humidity := none, temp := 3,
          et0 := none, aridity_index := none,
          flags := classify_flags 3 3 none 0 } =
      specRecommendation
        [⟨fun _ => none, "red", "bad rule"⟩,
          ⟨fun _ => some true, "high", "frost risk, delay sowing"⟩]
        { date := "2025-01-01", temp_max := 3, temp_min := 3, precip_mm := 0,
          wind_speed := 0, wind_gusts := 0, humidity := none, temp := 3,
          et0 := none, aridity_index := none,
          flags := classify_flags 3 3 none 0 }) ∧
    specRecommendation
        [⟨fun _ => none, "red", "bad rule"⟩,
          ⟨fun _ => some true, "high", "frost risk, delay sowing"⟩]
        { date := "2025-01-01", temp_max := 3, temp_min := 3, precip_mm := 0,
          wind_speed := 0, wind_gusts := 0, humidity := none, temp := 3,
          et0 := none, aridity_index := none,
          flags := classify_flags 3 3 none 0 } =
      "[HIGH] frost risk, delay sowing" :=
  ⟨(C7_rule_evaluation "wheat"
      [("wheat", [⟨fun _ => none, "red", "bad rule"⟩,
        ⟨fun _ => some true, "high", "frost risk, delay sowing"⟩])]
      { date := "2025-01-01", temp_max := 3, temp_min := 3, precip_mm := 0,
        wind_speed := 0, wind_gusts := 0, humidity := none, temp := 3,
        et0 := none, aridity_index := none,
        flags := classify_flags 3 3 none 0 }
      [⟨fun _ => none, "red", "bad rule"⟩,
        ⟨fun _ => some true, "high", "frost risk, delay sowing"⟩]
      rfl (List.cons_ne_nil _ _)).1,
    by decide⟩

/-! ### C8: the derived-metric formulas over ℝ

`df["temp"] = (temp_min + temp_max)/2`,
`df["et0"] = 0.0023 * (temp_max - temp_min)**0.5 * (temp + 17.8)`,
`df["aridity_index"] = precip_mm / (et0 + 0.01)`
(agri_weather.py 118–120, identically weather_service.py 92–94).  A negative
float raised to `0.5` is NaN and NaN propagates, hence the `Option`. -/

noncomputable def et0R (temp_max temp_min : ℝ) : Option ℝ :=
  if temp_max - temp_min < 0 then none
  else some (0.0023 * Real.sqrt (temp_max - temp_min) * ((temp_min + temp_max) / 2 + 17.8))

noncomputable def aridityR (precip : ℝ) (e : Option ℝ) : Option ℝ :=
  e.map fun x => precip / (x + 0.01)

/-- C8.  `et0` equals `0.0023 · sqrt(temp_max − temp_min) · (midpoint + 17.8)`
and is NaN (`none`, not an exception) exactly when `temp_max < temp_min`;
whenever `et0 ≥ 0`, the aridity index `precip / (et0 + 0.01)` is defined and
its denominator is strictly positive, so no division by zero occurs. -/
theorem C8_et0_aridity (tmax tmin precip : ℝ) :
    (et0R tmax tmin = none ↔ tmax < tmin) ∧
    (tmin ≤ tmax →
      et0R tmax tmin =
        some (0.0023 * Real.sqrt (tmax - tmin) * ((tmin + tmax) / 2 + 17.8))) ∧
    (∀ x : ℝ, et0R tmax tmin = some x → 0 ≤ x →
      0 < x + 0.01 ∧ aridityR precip (et0R tmax tmin) = some (precip / (x + 0.01))) := by
  refine ⟨?_, ?_, ?_⟩
  · unfold et0R
    split_ifs with hc
    · exact iff_of_true rfl (by linarith [sub_neg.mp hc])
    · refine iff_of_false (by simp) ?_
      intro hlt
      exact hc (sub_neg.mpr hlt)
  · intro hle
    unfold et0R
    rw [if_neg (by rw [not_lt]; linarith)]
  · intro x hx h0
    have hpos : (0 : ℝ) < x + 0.01 := by
      have : (0 : ℝ) < 0.01 := by norm_num
      linarith
    refine ⟨hpos, ?_⟩
    rw [hx]
    rfl

/-- Witness for C8 at `temp_max = 4`, `temp_min = 0`, `precip = 1`. -/
theorem C8_et0_aridity_witness :
    0 ≤ (0.0023 : ℝ) * Real.sqrt ((4 : ℝ) - 0) * (((0 : ℝ) + 4) / 2 + 17.8) ∧
    et0R 4 0 = some ((0.0023 : ℝ) * Real.sqrt ((4 : ℝ) - 0) * (((0 : ℝ) + 4) / 2 + 17.8)) ∧
    0 < (0.0023 : ℝ) * Real.sqrt ((4 : ℝ) - 0) * (((0 : ℝ) + 4) / 2 + 17.8) + 0.01 ∧
    aridityR 1 (et0R 4 0) =
      some (1 / ((0.0023 : ℝ) * Real.sqrt ((4 : ℝ) - 0) * (((0 : ℝ) + 4) / 2 + 17.8) + 0.01)) := by
  have hpos : 0 ≤ (0.0023 : ℝ) * Real.sqrt ((4 : ℝ) - 0) * (((0 : ℝ) + 4) / 2 + 17.8) := by
    positivity
  have h2 := (C8_et0_aridity 4 0 1).2.1 (by norm_num)
  have h3 := (C8_et0_aridity 4 0 1).2.2 _ h2 hpos
  exact ⟨hpos, h2, h3.1, h3.2⟩

/-! ### C10: crop-name resolution and letter case

agri_weather.py stores the knowledge-base keys verbatim (`c["name"]`,
line 127, and the aliases, line 129) but looks them up lowercased
(`crop_name.lower()`, line 58); crop_service.py 13–16 lowercases the stored
keys as well.  So in the main pipeline a crop stored with any upper-case
letter is never found — not even by a request equal to its stored name. -/

/-- C10.  With a knowledge base containing the crop `"Wheat"`, the main
pipeline's resolution of the request `"Wheat"` — equal to the canonical name
even before ignoring case — fails and yields the no-knowledge-base message,
because the lookup key is lowercased while the table key is not.  The
service-layer loader (`_load_crop_rules`), which lowercases stored names and
aliases, resolves the same request to the crop's rule set as the claim
describes. -/
theorem C10_case_insensitive_resolution_bug :
    recText "Wheat"
        (buildCropRules [⟨"Wheat", ["Gehu"], [⟨fun _ => some true, "high", "frost risk"⟩]⟩])
        { date := "2025-01-01", temp_max := 0, temp_min := 0, precip_mm := 0,
          wind_speed := 0, wind_gusts := 0, humidity := none, temp := 0,
          et0 := none, aridity_index := none,
          flags := classify_flags 0 0 none 0 } = noKbMsg "Wheat" ∧
    dictGet (buildCropRulesLower
        [⟨"Wheat", ["Gehu"], [⟨fun _ => some true, "high", "frost risk"⟩]⟩])
        (lowerStr "Wheat") = some [⟨fun _ => some true, "high", "frost risk"⟩] ∧
    lowerStr "Wheat" = "wheat" ∧ lowerStr "WHEAT" = "wheat" :=
  ⟨by decide, rfl, by decide, by decide⟩

end Farming
